import Mathlib

/-!
Verification model of the zircon port bindings in
`public/rust/crates/fuchsia-zircon/src/port.rs` (the wait-primitive facade
of the garnet async executor).

The pure packet-wrapper code (`Packet`, `UserPacket`, `SignalPacket` and
their accessors) is translated directly from the Rust source.  The
kernel-side behaviour of the port itself (`zx_port_wait`, `zx_port_queue`,
`zx_object_wait_async`, `zx_object_signal`, `zx_port_cancel`) lives behind
syscalls and is not part of the crate; it is modelled from the spec's
wait-primitive contract and pinned by the crate's own tests
(`port_basic`, `wait_async_once`, `wait_async_repeating`).
-/

deriving instance DecidableEq for Except

namespace Garnet

/-- Zircon status code, wrapping an `i32` as the Rust `Status` type does. -/
structure Status where
  code : Int
deriving DecidableEq, Repr

/-- `ZX_OK`. -/
def Status.OK : Status := ⟨0⟩

/-- `ZX_ERR_TIMED_OUT`. -/
def Status.TIMED_OUT : Status := ⟨-21⟩

/-- `ZX_ERR_NOT_FOUND`. -/
def Status.NOT_FOUND : Status := ⟨-25⟩

/-- `ZX_ERR_BAD_HANDLE`. -/
def Status.BAD_HANDLE : Status := ⟨-11⟩

/-- Little-endian byte list of width `w` for a natural number. -/
def leBytes : Nat → Nat → List Nat
  | 0, _ => []
  | w + 1, x => (x % 256) :: leBytes w (x / 256)

/-- Read back a little-endian byte list as a natural number. -/
def leNat : List Nat → Nat
  | [] => 0
  | b :: bs => b + 256 * leNat bs

/-- The packet type tag `zx_packet_type_t` from the sys crate.  The three
tags used by `port.rs` are listed; `other` stands for any further kernel
packet type (e.g. exception packets). -/
inductive PacketType where
  | ZX_PKT_TYPE_USER
  | ZX_PKT_TYPE_SIGNAL_ONE
  | ZX_PKT_TYPE_SIGNAL_REP
  | other (tag : Nat)
deriving DecidableEq, Repr

/-- `zx_packet_signal_t`: trigger (`u32`), observed (`u32`), count (`u64`). -/
structure SignalRaw where
  trigger : Nat
  observed : Nat
  count : Nat
deriving DecidableEq, Repr

/-- `zx_port_packet_t`: key (`u64`), type tag, status (`i32`), and a raw
32-byte union. -/
structure RawPacket where
  key : Nat
  packet_type : PacketType
  status : Int
  union : List Nat
deriving DecidableEq, Repr

/-- `Packet(sys::zx_port_packet_t)`. -/
structure Packet where
  raw : RawPacket
deriving DecidableEq, Repr

/-- `UserPacket(sys::zx_packet_user_t)` — a 32-byte array. -/
structure UserPacket where
  bytes : List Nat
deriving DecidableEq, Repr

/-- `SignalPacket(sys::zx_packet_signal_t)`. -/
structure SignalPacket where
  raw : SignalRaw
deriving DecidableEq, Repr

/-- `PacketContents`: the decoded contents of a `Packet`. -/
inductive PacketContents where
  | User (u : UserPacket)
  | SignalOne (s : SignalPacket)
  | SignalRep (s : SignalPacket)
deriving DecidableEq, Repr

/-- The `mem::transmute_copy` of the 32-byte union to `zx_packet_signal_t`
(little-endian layout: 4-byte trigger, 4-byte observed, 8-byte count). -/
def decodeSignal (u : List Nat) : SignalRaw :=
  { trigger := leNat (u.take 4)
  , observed := leNat ((u.drop 4).take 4)
  , count := leNat ((u.drop 8).take 8) }

/-- The inverse layout map: the union bytes holding a `zx_packet_signal_t`. -/
def encodeSignal (s : SignalRaw) : List Nat :=
  leBytes 4 s.trigger ++ leBytes 4 s.observed ++ leBytes 8 s.count ++ leBytes 16 0

/-- `Packet::from_user_packet(key, status, user)`. -/
def Packet.from_user_packet (key : Nat) (status : Int) (user : UserPacket) : Packet :=
  ⟨{ key := key
   , packet_type := PacketType.ZX_PKT_TYPE_USER
   , status := status
   , union := user.bytes }⟩

/-- `Packet::key()`. -/
def Packet.key (p : Packet) : Nat := p.raw.key

/-- `Packet::status()`. -/
def Packet.status (p : Packet) : Int := p.raw.status

/-- `Packet::contents()`.  `none` is the `panic!("unexpected packet type")`
branch taken for a tag that is none of the three spec'd kinds. -/
def Packet.contents (p : Packet) : Option PacketContents :=
  if p.raw.packet_type = PacketType.ZX_PKT_TYPE_USER then
    some (PacketContents.User ⟨p.raw.union⟩)
  else if p.raw.packet_type = PacketType.ZX_PKT_TYPE_SIGNAL_ONE then
    some (PacketContents.SignalOne ⟨decodeSignal p.raw.union⟩)
  else if p.raw.packet_type = PacketType.ZX_PKT_TYPE_SIGNAL_REP then
    some (PacketContents.SignalRep ⟨decodeSignal p.raw.union⟩)
  else
    none

/-- `UserPacket::from_u8_array(val)`. -/
def UserPacket.from_u8_array (val : List Nat) : UserPacket := ⟨val⟩

/-- `UserPacket::as_u8_array()`. -/
def UserPacket.as_u8_array (p : UserPacket) : List Nat := p.bytes

/-- Writing a value through the mutable reference returned by
`UserPacket::as_mut_u8_array()`: the reference is to the wrapped array, so
a store through it replaces the payload bytes. -/
def UserPacket.write_mut_u8_array (_ : UserPacket) (val : List Nat) : UserPacket := ⟨val⟩

/-- Modelled from the spec: the mask of all defined `Signals` bits.  The
bitflags `Signals` definition (signals.rs of the fuchsia-zircon crate) is
not in the sources; the spec only needs that some fixed subset of the 32
bits is defined.  Listed here: the general object signals (bits 0–7), the
handle-closed signal (bit 23) and the eight user signals (bits 24–31), as
in zircon's `zx_signals_t`. -/
def signalsMask : Nat := 0xFF8000FF

/-- `Signals::USER_0` (`ZX_USER_SIGNAL_0`, bit 24). -/
def USER_0 : Nat := 0x01000000

/-- `Signals::USER_1` (`ZX_USER_SIGNAL_1`, bit 25). -/
def USER_1 : Nat := 0x02000000

/-- `Signals::from_bits_truncate(bits)` from the bitflags macro: undefined
bits are silently dropped. -/
def fromBitsTruncate (bits : Nat) : Nat := bits &&& signalsMask

/-- `SignalPacket::trigger()`. -/
def SignalPacket.trigger (p : SignalPacket) : Nat := fromBitsTruncate p.raw.trigger

/-- `SignalPacket::observed()`. -/
def SignalPacket.observed (p : SignalPacket) : Nat := fromBitsTruncate p.raw.observed

/-- `SignalPacket::count()`. -/
def SignalPacket.count (p : SignalPacket) : Nat := p.raw.count

theorem leBytes_length (w x : Nat) : (leBytes w x).length = w := by
  induction w generalizing x with
  | zero => rfl
  | succ w ih => simp [leBytes, ih]

theorem leNat_leBytes (w x : Nat) : leNat (leBytes w x) = x % 256 ^ w := by
  induction w generalizing x with
  | zero => simp [leBytes, leNat, Nat.mod_one]
  | succ w ih =>
      rw [leBytes, leNat, ih, Nat.pow_succ, Nat.mul_comm (256 ^ w) 256, Nat.mod_mul]

/-- The layout maps are mutually inverse on in-range field values: reading
the union bytes of an encoded `zx_packet_signal_t` back through the
transmute recovers the struct. -/
theorem decodeSignal_encodeSignal (t o c : Nat)
    (ht : t < 2 ^ 32) (ho : o < 2 ^ 32) (hc : c < 2 ^ 64) :
    decodeSignal (encodeSignal ⟨t, o, c⟩) = ⟨t, o, c⟩ := by
  have h4t : (leBytes 4 t).length = 4 := leBytes_length 4 t
  have h4o : (leBytes 4 o).length = 4 := leBytes_length 4 o
  have h8 : (leBytes 4 t ++ leBytes 4 o).length = 8 := by
    simp [leBytes_length]
  have e32 : (256 : Nat) ^ 4 = 2 ^ 32 := by norm_num
  have e64 : (256 : Nat) ^ 8 = 2 ^ 64 := by norm_num
  unfold decodeSignal encodeSignal
  simp only [SignalRaw.mk.injEq, List.append_assoc]
  refine ⟨?_, ?_, ?_⟩
  · rw [List.take_left' h4t, leNat_leBytes, e32]
    exact Nat.mod_eq_of_lt ht
  · rw [List.drop_left' h4t, List.take_left' h4o, leNat_leBytes, e32]
    exact Nat.mod_eq_of_lt ho
  · rw [← List.append_assoc, List.drop_left' h8,
      List.take_left' (leBytes_length 8 c), leNat_leBytes, e64]
    exact Nat.mod_eq_of_lt hc

/-! ## The port as a state machine

Modelled from the spec: the wait-primitive facade — create/enqueue/block/
request-notify/cancel over waitable objects carrying a `u32` signal mask.
The kernel side of `zx_port_*` and `zx_object_*` is not part of the crate
sources; the model follows the spec's contract (§6 of the spec) and the
behaviour pinned by the crate's own tests in `port.rs`. -/

/-- Registration mode: `WaitAsyncOpts::{Once, Repeating}`. -/
inductive WaitAsyncOpts where
  | Once
  | Repeating
deriving DecidableEq, Repr

/-- Modelled from the spec: a pending notify registration
(waitable handle, key, trigger mask, mode).  The `fired` flag is the
edge-trigger latch of a `Repeating` registration: set after a delivery,
reset when the observed signals leave the trigger condition. -/
structure Registration where
  source : Nat
  key : Nat
  trigger : Nat
  mode : WaitAsyncOpts
  fired : Bool
deriving DecidableEq, Repr

/-- Modelled from the spec: a waitable kernel object (e.g. an `Event`)
with its current `u32` signal state. -/
structure Waitable where
  id : Nat
  signals : Nat
deriving DecidableEq, Repr

/-- Modelled from the spec: a packet sitting in the port's queue, together
with its provenance — `some w` when it was produced by a notify
registration on waitable `w` (so `zx_port_cancel` can match it),
`none` for a user packet enqueued by `zx_port_queue`. -/
structure QueuedPacket where
  packet : Packet
  provenance : Option Nat
deriving DecidableEq, Repr

/-- Modelled from the spec: the state of one port plus the waitable
objects registered against it. -/
structure PortState where
  queue : List QueuedPacket
  regs : List Registration
  waitables : List Waitable
deriving DecidableEq, Repr

/-- A kernel-generated signal packet (status 0, as asserted by the
`port.rs` tests). -/
def mkSignalPacket (tag : PacketType) (key trigger observed count : Nat) : Packet :=
  ⟨{ key := key
   , packet_type := tag
   , status := 0
   , union := encodeSignal ⟨trigger, observed, count⟩ }⟩

/-- Look a waitable up by handle id. -/
def lookupWaitable (s : PortState) (w : Nat) : Option Waitable :=
  s.waitables.find? (fun x => x.id == w)

/-- Replace the signal state of waitable `w`. -/
def setSignals (w ns : Nat) : List Waitable → List Waitable
  | [] => []
  | x :: xs =>
      if x.id = w then { x with signals := ns } :: xs
      else x :: setSignals w ns xs

/-- Modelled from the spec: how one registration reacts to the waitable's
new signal state `newSig`.  A `Once` registration whose trigger matches
emits a one-shot packet and is consumed; a `Repeating` one emits a packet
only on a transition into the trigger condition (`fired` latch) and
persists; leaving the condition resets the latch. -/
def stepReg (newSig : Nat) (r : Registration) :
    Option Registration × List QueuedPacket :=
  if newSig &&& r.trigger ≠ 0 then
    match r.mode with
    | WaitAsyncOpts.Once =>
        (none,
         [⟨mkSignalPacket PacketType.ZX_PKT_TYPE_SIGNAL_ONE r.key r.trigger newSig 1,
           some r.source⟩])
    | WaitAsyncOpts.Repeating =>
        if r.fired then (some r, [])
        else
          (some { r with fired := true },
           [⟨mkSignalPacket PacketType.ZX_PKT_TYPE_SIGNAL_REP r.key r.trigger newSig 1,
             some r.source⟩])
  else
    (some { r with fired := false }, [])

/-- Run `stepReg` over all registrations on waitable `w`, collecting the
surviving registrations and the packets to enqueue. -/
def stepRegs (w newSig : Nat) : List Registration → List Registration × List QueuedPacket
  | [] => ([], [])
  | r :: rs =>
      let rest := stepRegs w newSig rs
      if r.source = w then
        match stepReg newSig r with
        | (none, ps) => (rest.fst, ps ++ rest.snd)
        | (some r2, ps) => (r2 :: rest.fst, ps ++ rest.snd)
      else
        (r :: rest.fst, rest.snd)

/-- Modelled from the spec: `zx_object_signal(handle, clear_mask,
set_mask)` — the new signal state is `(old AND NOT clear) OR set`
(`x ^^^ (x &&& c)` is `x AND NOT c`), and every registration on the
waitable reacts to the new state.  A missing waitable is a no-op. -/
def signalHandle (s : PortState) (w clearMask setMask : Nat) : PortState :=
  match lookupWaitable s w with
  | none => s
  | some x =>
      let ns := (x.signals ^^^ (x.signals &&& clearMask)) ||| setMask
      let rp := stepRegs w ns s.regs
      { queue := s.queue ++ rp.snd
      , regs := rp.fst
      , waitables := setSignals w ns s.waitables }

/-- Modelled from the spec: `Port::queue` (`zx_port_queue`) appends a user
packet to the port's queue. -/
def Port.queuePacket (s : PortState) (p : Packet) : Status × PortState :=
  (Status.OK, { s with queue := s.queue ++ [⟨p, none⟩] })

/-- Modelled from the spec: `Port::wait` (`zx_port_wait`) — the next
queued packet if one is available, else the deadline elapses with
`ZX_ERR_TIMED_OUT` and the port is unchanged.  (In the model packets
arrive only through explicit operations, so an empty queue means the
deadline elapses with no packet.) -/
def Port.wait (s : PortState) (deadline : Int) : Except Status Packet × PortState :=
  match s.queue with
  | [] => (Except.error Status.TIMED_OUT, s)
  | q :: rest => (Except.ok q.packet, { s with queue := rest })

/-- Modelled from the spec: `object_wait_async` (`wait_async_handle`) —
registers interest in `trigger` on waitable `w` with the given mode.  If
the current signal state already matches the trigger, a packet is
delivered at once (the `port.rs` tests re-register while the signal is
still set and observe an immediate packet); a matching `Once`
registration is consumed by that delivery, a `Repeating` one persists
with its edge latch set. -/
def waitAsync (s : PortState) (w key trigger : Nat) (mode : WaitAsyncOpts) :
    Status × PortState :=
  match lookupWaitable s w with
  | none => (Status.BAD_HANDLE, s)
  | some x =>
      if x.signals &&& trigger ≠ 0 then
        match mode with
        | WaitAsyncOpts.Once =>
            (Status.OK,
             { s with queue := s.queue ++
                 [⟨mkSignalPacket PacketType.ZX_PKT_TYPE_SIGNAL_ONE key trigger x.signals 1,
                   some w⟩] })
        | WaitAsyncOpts.Repeating =>
            (Status.OK,
             { s with
               queue := s.queue ++
                 [⟨mkSignalPacket PacketType.ZX_PKT_TYPE_SIGNAL_REP key trigger x.signals 1,
                   some w⟩],
               regs := s.regs ++ [⟨w, key, trigger, mode, true⟩] })
      else
        (Status.OK, { s with regs := s.regs ++ [⟨w, key, trigger, mode, false⟩] })

/-- Modelled from the spec and the `wait_async_once` test: `Port::cancel`
(`zx_port_cancel`) removes every pending registration for
(waitable, key) and every not-yet-received packet that such a
registration already enqueued ("we should not get a packet as cancel
will remove it from the queue"); user packets are untouched.
`ZX_ERR_NOT_FOUND` when nothing matched. -/
def Port.cancel (s : PortState) (w key : Nat) : Status × PortState :=
  let regMatch := fun (r : Registration) => r.source == w && r.key == key
  let pktMatch := fun (q : QueuedPacket) => q.provenance == some w && q.packet.key == key
  ( if s.regs.any regMatch || s.queue.any pktMatch then Status.OK else Status.NOT_FOUND
  , { s with regs := s.regs.filter (fun r => !regMatch r)
           , queue := s.queue.filter (fun q => !pktMatch q) } )

/-- Modelled from the spec: closing/dropping the source waitable removes
the object and all of its registrations, stopping all future delivery;
already-queued packets stay queued. -/
def dropWaitable (s : PortState) (w : Nat) : PortState :=
  { queue := s.queue
  , regs := s.regs.filter (fun r => !(r.source == w))
  , waitables := s.waitables.filter (fun x => !(x.id == w)) }

/-- One `zx_object_signal` call: target waitable, clear mask, set mask. -/
structure SigOp where
  target : Nat
  clearMask : Nat
  setMask : Nat
deriving DecidableEq, Repr

/-- Run a sequence of signal operations. -/
def runSigOps (s : PortState) (ops : List SigOp) : PortState :=
  ops.foldl (fun st op => signalHandle st op.target op.clearMask op.setMask) s

/-! ## Helper lemmas -/

theorem land_land_self (x m : Nat) : (x &&& m) &&& m = x &&& m := by
  apply Nat.eq_of_testBit_eq
  intro i
  simp only [Nat.testBit_land, Bool.and_assoc, Bool.and_self]

theorem signalHandle_of_regs_nil (s : PortState) (w c m : Nat) (h : s.regs = []) :
    (signalHandle s w c m).queue = s.queue ∧ (signalHandle s w c m).regs = [] := by
  unfold signalHandle
  cases lookupWaitable s w with
  | none => exact ⟨rfl, h⟩
  | some x => simp [h, stepRegs]

theorem runSigOps_of_regs_nil (ops : List SigOp) (s : PortState) (h : s.regs = []) :
    (runSigOps s ops).queue = s.queue ∧ (runSigOps s ops).regs = [] := by
  induction ops generalizing s with
  | nil => exact ⟨rfl, h⟩
  | cons op rest ih =>
      have h1 := signalHandle_of_regs_nil s op.target op.clearMask op.setMask h
      have h2 := ih (signalHandle s op.target op.clearMask op.setMask) h1.2
      exact ⟨h2.1.trans h1.1, h2.2⟩

/-! ## Claims -/

/-- Claim C4: `Packet::from_user_packet(k, s, u)` builds a packet with
`key() = k`, `status() = s` and `contents() = PacketContents::User(u)`,
for every `u64` key and every 32-byte payload. -/
theorem C4_from_user_packet (k : Nat) (st : Int) (u : UserPacket)
    (hk : k < 2 ^ 64) (hu : u.bytes.length = 32) :
    (Packet.from_user_packet k st u).key = k ∧
    (Packet.from_user_packet k st u).status = st ∧
    (Packet.from_user_packet k st u).contents = some (PacketContents.User u) := by
  refine ⟨rfl, rfl, ?_⟩
  simp [Packet.contents, Packet.from_user_packet]

theorem C4_witness :
    (42 : Nat) < 2 ^ 64 ∧
    (UserPacket.from_u8_array (List.replicate 32 13)).bytes.length = 32 ∧
    ((Packet.from_user_packet 42 123 (UserPacket.from_u8_array (List.replicate 32 13))).key = 42 ∧
     (Packet.from_user_packet 42 123 (UserPacket.from_u8_array (List.replicate 32 13))).status = 123 ∧
     (Packet.from_user_packet 42 123 (UserPacket.from_u8_array (List.replicate 32 13))).contents
       = some (PacketContents.User (UserPacket.from_u8_array (List.replicate 32 13)))) :=
  ⟨by norm_num, by decide,
   C4_from_user_packet 42 123 (UserPacket.from_u8_array (List.replicate 32 13))
     (by norm_num) (by decide)⟩

/-- Claim C7: `Packet::contents()` returns exactly the variant matching the
packet's type tag — `User`, `SignalOne` or `SignalRep` — and for any
other tag the `panic!` branch is taken (modelled as `none`). -/
theorem C7_contents_matches_tag (p : Packet) :
    (p.raw.packet_type = PacketType.ZX_PKT_TYPE_USER ∧
      p.contents = some (PacketContents.User ⟨p.raw.union⟩)) ∨
    (p.raw.packet_type = PacketType.ZX_PKT_TYPE_SIGNAL_ONE ∧
      p.contents = some (PacketContents.SignalOne ⟨decodeSignal p.raw.union⟩)) ∨
    (p.raw.packet_type = PacketType.ZX_PKT_TYPE_SIGNAL_REP ∧
      p.contents = some (PacketContents.SignalRep ⟨decodeSignal p.raw.union⟩)) ∨
    (∃ tag, p.raw.packet_type = PacketType.other tag ∧ p.contents = none) := by
  cases h : p.raw.packet_type with
  | ZX_PKT_TYPE_USER =>
      exact Or.inl ⟨rfl, by simp [Packet.contents, h]⟩
  | ZX_PKT_TYPE_SIGNAL_ONE =>
      exact Or.inr (Or.inl ⟨rfl, by simp [Packet.contents, h]⟩)
  | ZX_PKT_TYPE_SIGNAL_REP =>
      exact Or.inr (Or.inr (Or.inl ⟨rfl, by simp [Packet.contents, h]⟩))
  | other tag =>
      exact Or.inr (Or.inr (Or.inr ⟨tag, rfl, by simp [Packet.contents, h]⟩))

/-- Claim C9: the `UserPacket` payload round-trips — `from_u8_array` then
`as_u8_array` is the identity, and a write through `as_mut_u8_array`
followed by `as_u8_array` observes exactly the written bytes. -/
theorem C9_user_payload_roundtrip (v nv : List Nat) (p : UserPacket)
    (hv : v.length = 32) (hnv : nv.length = 32) :
    (UserPacket.from_u8_array v).as_u8_array = v ∧
    (p.write_mut_u8_array nv).as_u8_array = nv :=
  ⟨rfl, rfl⟩

theorem C9_witness :
    (List.replicate 32 13).length = 32 ∧
    (List.replicate 32 7).length = 32 ∧
    ((UserPacket.from_u8_array (List.replicate 32 13)).as_u8_array = List.replicate 32 13 ∧
     ((UserPacket.from_u8_array (List.replicate 32 13)).write_mut_u8_array
        (List.replicate 32 7)).as_u8_array = List.replicate 32 7) :=
  ⟨by decide, by decide,
   C9_user_payload_roundtrip (List.replicate 32 13) (List.replicate 32 7)
     (UserPacket.from_u8_array (List.replicate 32 13)) (by decide) (by decide)⟩

/-- Claim C10: `SignalPacket::trigger()` and `SignalPacket::observed()` are
total and never report a bit outside the defined `Signals` set: whatever
the raw masks hold, every reported bit lies inside `signalsMask`
(`from_bits_truncate` silently drops unknown bits). -/
theorem C10_signal_masks_truncated (sp : SignalPacket) :
    sp.trigger &&& signalsMask = sp.trigger ∧
    sp.observed &&& signalsMask = sp.observed := by
  constructor
  · exact land_land_self sp.raw.trigger signalsMask
  · exact land_land_self sp.raw.observed signalsMask

/-- Claim C6: `Port::wait(deadline)` either delivers the next queued packet or
returns an error status; with no packet available the deadline elapses
with `TIMED_OUT` — a valid outcome distinct from a packet — and the
port's state is unchanged. -/
theorem C6_wait_timeout_or_packet (s : PortState) (d : Int) :
    ((Port.wait s d).fst = Except.error Status.TIMED_OUT ∧
      (Port.wait s d).snd = s ∧ s.queue = []) ∨
    (∃ q rest, s.queue = q :: rest ∧
      Port.wait s d = (Except.ok q.packet, { s with queue := rest })) := by
  cases h : s.queue with
  | nil =>
      refine Or.inl ⟨?_, ?_, rfl⟩ <;> simp [Port.wait, h]
  | cons q rest =>
      exact Or.inr ⟨q, rest, rfl, by simp [Port.wait, h]⟩

/-- Claim C5: after a successful `queue(&p)` of a user packet on a port with
nothing pending, a wait whose deadline has not yet elapsed returns a
packet equal to `p` (same key, status and payload bytes). -/
theorem C5_enqueue_then_wait (s : PortState) (d : Int) (k : Nat) (st : Int)
    (u : UserPacket) (hq : s.queue = []) :
    (Port.queuePacket s (Packet.from_user_packet k st u)).fst = Status.OK ∧
    (Port.wait (Port.queuePacket s (Packet.from_user_packet k st u)).snd d).fst
      = Except.ok (Packet.from_user_packet k st u) := by
  refine ⟨rfl, ?_⟩
  simp [Port.queuePacket, Port.wait, hq]

theorem C5_witness :
    (PortState.mk [] [] []).queue = [] ∧
    ((Port.queuePacket ⟨[], [], []⟩
        (Packet.from_user_packet 42 123 (UserPacket.from_u8_array (List.replicate 32 13)))).fst
      = Status.OK ∧
     (Port.wait (Port.queuePacket ⟨[], [], []⟩
        (Packet.from_user_packet 42 123 (UserPacket.from_u8_array (List.replicate 32 13)))).snd 0).fst
      = Except.ok (Packet.from_user_packet 42 123 (UserPacket.from_u8_array (List.replicate 32 13)))) :=
  ⟨rfl, C5_enqueue_then_wait ⟨[], [], []⟩ 0 42 123
    (UserPacket.from_u8_array (List.replicate 32 13)) rfl⟩

/-- Claim C1: a `Once` registration delivers exactly one packet.  With the
trigger condition initially unmet, a wait times out; after the signal is
set, the first wait returns a one-shot signal packet carrying the key,
the observed signals and count 1; every subsequent wait, with no
re-registration, times out again. -/
theorem C1_once_single_delivery (s : PortState) (d : Int) (w k t m sig : Nat)
    (hq : s.queue = []) (hr : s.regs = []) (hw : s.waitables = [⟨w, sig⟩])
    (h0 : sig &&& t = 0) (h1 : (sig ||| m) &&& t ≠ 0)
    (ht : t < 2 ^ 32) (hsig : sig < 2 ^ 32) (hm : m < 2 ^ 32) :
    (waitAsync s w k t WaitAsyncOpts.Once).fst = Status.OK ∧
    (Port.wait (waitAsync s w k t WaitAsyncOpts.Once).snd d).fst
      = Except.error Status.TIMED_OUT ∧
    (Port.wait (signalHandle (waitAsync s w k t WaitAsyncOpts.Once).snd w 0 m) d).fst
      = Except.ok (mkSignalPacket PacketType.ZX_PKT_TYPE_SIGNAL_ONE k t (sig ||| m) 1) ∧
    (mkSignalPacket PacketType.ZX_PKT_TYPE_SIGNAL_ONE k t (sig ||| m) 1).key = k ∧
    (mkSignalPacket PacketType.ZX_PKT_TYPE_SIGNAL_ONE k t (sig ||| m) 1).contents
      = some (PacketContents.SignalOne ⟨⟨t, sig ||| m, 1⟩⟩) ∧
    (Port.wait
      (Port.wait (signalHandle (waitAsync s w k t WaitAsyncOpts.Once).snd w 0 m) d).snd d).fst
      = Except.error Status.TIMED_OUT := by
  have hsm : sig ||| m < 2 ^ 32 := Nat.bitwise_lt_two_pow hsig hm
  have hdec := decodeSignal_encodeSignal t (sig ||| m) 1 ht hsm (by norm_num)
  refine ⟨?_, ?_, ?_, rfl, ?_, ?_⟩
  · simp [waitAsync, lookupWaitable, hw, h0]
  · simp [waitAsync, lookupWaitable, hw, h0, Port.wait, hq]
  · simp [waitAsync, lookupWaitable, hw, h0, signalHandle, hq, hr,
      Nat.and_zero, Nat.xor_zero, stepRegs, stepReg, h1, Port.wait, mkSignalPacket]
  · simp [Packet.contents, mkSignalPacket, hdec]
  · simp [waitAsync, lookupWaitable, hw, h0, signalHandle, hq, hr,
      Nat.and_zero, Nat.xor_zero, stepRegs, stepReg, h1, Port.wait, mkSignalPacket]

theorem C1_witness :
    (PortState.mk [] [] [⟨1, 0⟩]).queue = [] ∧
    (PortState.mk [] [] [⟨1, 0⟩]).regs = [] ∧
    (PortState.mk [] [] [⟨1, 0⟩]).waitables = [⟨1, 0⟩] ∧
    (0 : Nat) &&& (USER_0 ||| USER_1) = 0 ∧
    ((0 : Nat) ||| USER_0) &&& (USER_0 ||| USER_1) ≠ 0 ∧
    (Port.wait (waitAsync ⟨[], [], [⟨1, 0⟩]⟩ 1 42 (USER_0 ||| USER_1) WaitAsyncOpts.Once).snd 0).fst
      = Except.error Status.TIMED_OUT ∧
    (Port.wait (signalHandle
        (waitAsync ⟨[], [], [⟨1, 0⟩]⟩ 1 42 (USER_0 ||| USER_1) WaitAsyncOpts.Once).snd 1 0 USER_0) 0).fst
      = Except.ok (mkSignalPacket PacketType.ZX_PKT_TYPE_SIGNAL_ONE 42 (USER_0 ||| USER_1) (0 ||| USER_0) 1) ∧
    (Port.wait (Port.wait (signalHandle
        (waitAsync ⟨[], [], [⟨1, 0⟩]⟩ 1 42 (USER_0 ||| USER_1) WaitAsyncOpts.Once).snd 1 0 USER_0) 0).snd 0).fst
      = Except.error Status.TIMED_OUT := by
  have h := C1_once_single_delivery ⟨[], [], [⟨1, 0⟩]⟩ 0 1 42 (USER_0 ||| USER_1) USER_0 0
    rfl rfl rfl (by decide) (by decide) (by decide) (by decide) (by decide)
  exact ⟨rfl, rfl, rfl, by decide, by decide, h.2.1, h.2.2.1, h.2.2.2.2.2⟩

/-- Claim C2: a `Repeating` registration is edge-triggered.  After a
delivery on a trigger-mask match, setting the same signal again without
clearing delivers no additional packet, while clearing and re-setting it
(with no re-registration) delivers another packet with the same key and
trigger mask and count 1. -/
theorem C2_repeating_edge_triggered (s : PortState) (d : Int) (w k t m : Nat)
    (hq : s.queue = []) (hr : s.regs = []) (hw : s.waitables = [⟨w, 0⟩])
    (hmt : m &&& t ≠ 0) (ht : t < 2 ^ 32) (hm : m < 2 ^ 32) :
    (waitAsync s w k t WaitAsyncOpts.Repeating).fst = Status.OK ∧
    (Port.wait (waitAsync s w k t WaitAsyncOpts.Repeating).snd d).fst
      = Except.error Status.TIMED_OUT ∧
    (Port.wait (signalHandle (waitAsync s w k t WaitAsyncOpts.Repeating).snd w 0 m) d).fst
      = Except.ok (mkSignalPacket PacketType.ZX_PKT_TYPE_SIGNAL_REP k t m 1) ∧
    (mkSignalPacket PacketType.ZX_PKT_TYPE_SIGNAL_REP k t m 1).key = k ∧
    (mkSignalPacket PacketType.ZX_PKT_TYPE_SIGNAL_REP k t m 1).contents
      = some (PacketContents.SignalRep ⟨⟨t, m, 1⟩⟩) ∧
    (Port.wait (signalHandle
      (Port.wait (signalHandle (waitAsync s w k t WaitAsyncOpts.Repeating).snd w 0 m) d).snd
      w 0 m) d).fst = Except.error Status.TIMED_OUT ∧
    (Port.wait (signalHandle (signalHandle (signalHandle
      (Port.wait (signalHandle (waitAsync s w k t WaitAsyncOpts.Repeating).snd w 0 m) d).snd
      w 0 m) w m 0) w 0 m) d).fst
      = Except.ok (mkSignalPacket PacketType.ZX_PKT_TYPE_SIGNAL_REP k t m 1) := by
  have hdec := decodeSignal_encodeSignal t m 1 ht hm (by norm_num)
  refine ⟨?_, ?_, ?_, rfl, ?_, ?_, ?_⟩
  · simp [waitAsync, lookupWaitable, hw]
  · simp [waitAsync, lookupWaitable, hw, Port.wait, hq]
  · simp [waitAsync, lookupWaitable, hw, signalHandle, hq, hr, setSignals,
      Nat.and_zero, Nat.xor_zero, Nat.zero_and, Nat.zero_or,
      stepRegs, stepReg, hmt, Port.wait, mkSignalPacket]
  · simp [Packet.contents, mkSignalPacket, hdec]
  · simp [waitAsync, lookupWaitable, hw, signalHandle, hq, hr, setSignals,
      Nat.and_zero, Nat.xor_zero, Nat.zero_and, Nat.zero_or, Nat.or_self,
      stepRegs, stepReg, hmt, Port.wait, mkSignalPacket]
  · simp [waitAsync, lookupWaitable, hw, signalHandle, hq, hr, setSignals,
      Nat.and_zero, Nat.xor_zero, Nat.zero_and, Nat.zero_or, Nat.or_self,
      Nat.and_self, Nat.xor_self, Nat.or_zero,
      stepRegs, stepReg, hmt, Port.wait, mkSignalPacket]

theorem C2_witness :
    (PortState.mk [] [] [⟨1, 0⟩]).queue = [] ∧
    (PortState.mk [] [] [⟨1, 0⟩]).regs = [] ∧
    (PortState.mk [] [] [⟨1, 0⟩]).waitables = [⟨1, 0⟩] ∧
    USER_0 &&& (USER_0 ||| USER_1) ≠ 0 ∧
    (Port.wait (signalHandle
        (waitAsync ⟨[], [], [⟨1, 0⟩]⟩ 1 42 (USER_0 ||| USER_1) WaitAsyncOpts.Repeating).snd
        1 0 USER_0) 0).fst
      = Except.ok (mkSignalPacket PacketType.ZX_PKT_TYPE_SIGNAL_REP 42 (USER_0 ||| USER_1) USER_0 1) ∧
    (Port.wait (signalHandle
      (Port.wait (signalHandle
        (waitAsync ⟨[], [], [⟨1, 0⟩]⟩ 1 42 (USER_0 ||| USER_1) WaitAsyncOpts.Repeating).snd
        1 0 USER_0) 0).snd 1 0 USER_0) 0).fst = Except.error Status.TIMED_OUT ∧
    (Port.wait (signalHandle (signalHandle (signalHandle
      (Port.wait (signalHandle
        (waitAsync ⟨[], [], [⟨1, 0⟩]⟩ 1 42 (USER_0 ||| USER_1) WaitAsyncOpts.Repeating).snd
        1 0 USER_0) 0).snd 1 0 USER_0) 1 USER_0 0) 1 0 USER_0) 0).fst
      = Except.ok (mkSignalPacket PacketType.ZX_PKT_TYPE_SIGNAL_REP 42 (USER_0 ||| USER_1) USER_0 1) := by
  have h := C2_repeating_edge_triggered ⟨[], [], [⟨1, 0⟩]⟩ 0 1 42 (USER_0 ||| USER_1) USER_0
    rfl rfl rfl (by decide) (by decide) (by decide)
  exact ⟨rfl, rfl, rfl, by decide, h.2.2.1, h.2.2.2.2.2.1, h.2.2.2.2.2.2⟩

/-- Claim C3, counterexample: a registration made while its trigger
condition already holds enqueues its packet at once; a following
`cancel` succeeds and the enqueued packet is *removed* — the next wait
times out instead of delivering it.  This is the behaviour the crate's
own `wait_async_once` test demands ("cancel will remove it from the
queue") and it refutes the claim's conjunct that packets already
enqueued before the cancel are still delivered. -/
theorem C3_counterexample :
    (waitAsync ⟨[], [], [⟨1, USER_0⟩]⟩ 1 42 USER_0 WaitAsyncOpts.Once).fst = Status.OK ∧
    (waitAsync ⟨[], [], [⟨1, USER_0⟩]⟩ 1 42 USER_0 WaitAsyncOpts.Once).snd.queue
      = [⟨mkSignalPacket PacketType.ZX_PKT_TYPE_SIGNAL_ONE 42 USER_0 USER_0 1, some 1⟩] ∧
    (Port.cancel (waitAsync ⟨[], [], [⟨1, USER_0⟩]⟩ 1 42 USER_0 WaitAsyncOpts.Once).snd 1 42).fst
      = Status.OK ∧
    (Port.wait
      (Port.cancel (waitAsync ⟨[], [], [⟨1, USER_0⟩]⟩ 1 42 USER_0 WaitAsyncOpts.Once).snd 1 42).snd
      0).fst = Except.error Status.TIMED_OUT := by
  decide

/-- Claim C3 (amended): a successful `cancel(Port, waitable, key)`
removes the pending registration for (waitable, key) *and* every
not-yet-received packet that this registration had already enqueued;
queued packets not from that registration (in particular user packets)
are unaffected, and subsequently satisfying the trigger condition —
even repeatedly — never delivers a packet for that key. -/
theorem C3_cancel_stops_delivery (s : PortState) (w k t : Nat)
    (mode : WaitAsyncOpts) (f : Bool)
    (hr : s.regs = [⟨w, k, t, mode, f⟩]) :
    (Port.cancel s w k).fst = Status.OK ∧
    (Port.cancel s w k).snd.regs = [] ∧
    (Port.cancel s w k).snd.queue
      = s.queue.filter (fun q => !(q.provenance == some w && q.packet.key == k)) ∧
    ∀ ops : List SigOp,
      (runSigOps (Port.cancel s w k).snd ops).queue
        = s.queue.filter (fun q => !(q.provenance == some w && q.packet.key == k)) := by
  have hregs : (Port.cancel s w k).snd.regs = [] := by
    simp [Port.cancel, hr]
  have hqueue : (Port.cancel s w k).snd.queue
      = s.queue.filter (fun q => !(q.provenance == some w && q.packet.key == k)) := by
    simp [Port.cancel]
  refine ⟨?_, hregs, hqueue, ?_⟩
  · simp [Port.cancel, hr]
  · intro ops
    exact ((runSigOps_of_regs_nil ops _ hregs).1).trans hqueue

theorem C3_witness :
    (PortState.mk
      [⟨Packet.from_user_packet 7 0 (UserPacket.from_u8_array (List.replicate 32 13)), none⟩,
       ⟨mkSignalPacket PacketType.ZX_PKT_TYPE_SIGNAL_ONE 42 USER_0 USER_0 1, some 1⟩]
      [⟨1, 42, USER_0, WaitAsyncOpts.Once, false⟩] [⟨1, 0⟩]).regs
      = [⟨1, 42, USER_0, WaitAsyncOpts.Once, false⟩] ∧
    (Port.cancel (PortState.mk
      [⟨Packet.from_user_packet 7 0 (UserPacket.from_u8_array (List.replicate 32 13)), none⟩,
       ⟨mkSignalPacket PacketType.ZX_PKT_TYPE_SIGNAL_ONE 42 USER_0 USER_0 1, some 1⟩]
      [⟨1, 42, USER_0, WaitAsyncOpts.Once, false⟩] [⟨1, 0⟩]) 1 42).fst = Status.OK ∧
    (runSigOps (Port.cancel (PortState.mk
      [⟨Packet.from_user_packet 7 0 (UserPacket.from_u8_array (List.replicate 32 13)), none⟩,
       ⟨mkSignalPacket PacketType.ZX_PKT_TYPE_SIGNAL_ONE 42 USER_0 USER_0 1, some 1⟩]
      [⟨1, 42, USER_0, WaitAsyncOpts.Once, false⟩] [⟨1, 0⟩]) 1 42).snd
      [⟨1, 0, USER_0⟩, ⟨1, USER_0, 0⟩, ⟨1, 0, USER_0⟩]).queue
      = [⟨Packet.from_user_packet 7 0 (UserPacket.from_u8_array (List.replicate 32 13)), none⟩] := by
  have h := C3_cancel_stops_delivery (PortState.mk
      [⟨Packet.from_user_packet 7 0 (UserPacket.from_u8_array (List.replicate 32 13)), none⟩,
       ⟨mkSignalPacket PacketType.ZX_PKT_TYPE_SIGNAL_ONE 42 USER_0 USER_0 1, some 1⟩]
      [⟨1, 42, USER_0, WaitAsyncOpts.Once, false⟩] [⟨1, 0⟩]) 1 42 USER_0
      WaitAsyncOpts.Once false rfl
  exact ⟨rfl, h.1, (h.2.2.2 [⟨1, 0, USER_0⟩, ⟨1, USER_0, 0⟩, ⟨1, 0, USER_0⟩]).trans (by decide)⟩

/-- Claim C8: dropping the source waitable removes all of its
registrations, so every subsequent wait times out — even after any
further sequence of signal operations — and the model stays total
(no crash, no hang). -/
theorem C8_drop_stops_delivery (s : PortState) (d : Int) (w : Nat)
    (hq : s.queue = []) (hr : ∀ r ∈ s.regs, r.source = w) :
    (dropWaitable s w).regs = [] ∧
    (Port.wait (dropWaitable s w) d).fst = Except.error Status.TIMED_OUT ∧
    ∀ ops : List SigOp,
      (Port.wait (runSigOps (dropWaitable s w) ops) d).fst
        = Except.error Status.TIMED_OUT := by
  have hregs : (dropWaitable s w).regs = [] := by
    unfold dropWaitable
    simp only
    rw [List.filter_eq_nil_iff]
    intro r hmem
    simp [hr r hmem]
  have hq2 : (dropWaitable s w).queue = [] := hq
  refine ⟨hregs, ?_, ?_⟩
  · simp [Port.wait, hq2]
  · intro ops
    have h2 : (runSigOps (dropWaitable s w) ops).queue = [] :=
      ((runSigOps_of_regs_nil ops _ hregs).1).trans hq2
    simp [Port.wait, h2]

theorem C8_witness :
    (PortState.mk [] [⟨1, 42, USER_0, WaitAsyncOpts.Repeating, true⟩] [⟨1, USER_0⟩]).queue = [] ∧
    (∀ r ∈ (PortState.mk [] [⟨1, 42, USER_0, WaitAsyncOpts.Repeating, true⟩]
        [⟨1, USER_0⟩]).regs, r.source = 1) ∧
    (dropWaitable (PortState.mk [] [⟨1, 42, USER_0, WaitAsyncOpts.Repeating, true⟩]
        [⟨1, USER_0⟩]) 1).regs = [] ∧
    (Port.wait (runSigOps (dropWaitable
        (PortState.mk [] [⟨1, 42, USER_0, WaitAsyncOpts.Repeating, true⟩] [⟨1, USER_0⟩]) 1)
        [⟨1, USER_0, 0⟩, ⟨1, 0, USER_0⟩]) 0).fst = Except.error Status.TIMED_OUT := by
  have h := C8_drop_stops_delivery
    (PortState.mk [] [⟨1, 42, USER_0, WaitAsyncOpts.Repeating, true⟩] [⟨1, USER_0⟩]) 0 1
    rfl (by decide)
  exact ⟨rfl, by decide, h.1, h.2.2 [⟨1, USER_0, 0⟩, ⟨1, 0, USER_0⟩]⟩

end Garnet
